import Mathlib

/-!
# GNTP notification backend (gio/ggntpnotificationbackend.c)

A shallow embedding of the GNTP backend of GNotification: the backend record
(`is_registered`, `is_registering`, `notifications`), the two entry points
(`send_notification`, `withdraw_notification`), the two completion callbacks
(`gntp_register_callback`, `gntp_notify_callback`) and the line encoder
`gntp_write`.

Conventions of the embedding.

* A `gchar` is a byte.  A C string (`CStr`) is represented by the bytes that
  precede its terminating NUL, so `strlen` is the length of the list and `%s`
  copies the whole list.  Pointers to strings are taken to be non-NULL.
* Asynchronous operations are not executed; starting one is recorded as an
  `Event`, and the callback is a function of the backend record and of what the
  transport hands to it (connection error, bytes read, read error).
* Reference counting and `g_free` are not modelled.
* `error->message` with `error == NULL` ends the callback with
  `Completion.null_dereference`; everything done before that point is kept in
  the outcome.
-/

namespace GNTP

/-! ## Strings -/

/-- One `gchar`: a byte. -/
abbrev gchar := UInt8

/-- The contents of a NUL-terminated string, terminator excluded. -/
abbrev CStr := List gchar

/-- A string literal of the C source (all of them are ASCII). -/
def ascii (s : String) : CStr := s.toList.map (fun c => UInt8.ofNat c.toNat)

/-- The C library routine `strlen`. -/
def strlen (s : CStr) : Nat := s.length

/-- The call `g_snprintf (buf, n, fmt, ...)` where `formatted` is the complete expansion
of the format: at most `n - 1` bytes are stored, followed by the NUL. -/
def g_snprintf (n : Nat) (formatted : CStr) : CStr := formatted.take (n - 1)

/-! ## Data model -/

/-- The type `GError`: only the message is used by the backend. -/
structure GError where
  message : CStr
  deriving DecidableEq, Repr

/-- What the backend reads from a `GNotification`
(`g_notification_get_title`, `g_notification_get_body`,
`g_notification_get_urgent`). -/
structure GNotification where
  title : CStr
  body : CStr
  urgent : Bool
  deriving DecidableEq, Repr

/-- The record `GGNTPNotification` (lines 56-62).  The `backend` member is a back pointer
to the owning backend and carries no data of its own. -/
structure GGNTPNotification where
  title : CStr
  text : CStr
  urgent : Bool
  deriving DecidableEq, Repr

/-- The record `struct _GGNTPNotificationBackend` (lines 48-54); `notifications` is the
`GSList`, head first. -/
structure GGNTPNotificationBackend where
  is_registered : Bool
  is_registering : Bool
  notifications : List GGNTPNotification
  deriving DecidableEq, Repr

/-- The callback handed to `g_socket_client_connect_to_host_async`, together
with its user data when that is a notification record. -/
inductive Callback where
  | gntp_register_callback
  | gntp_notify_callback (notification : GGNTPNotification)
  deriving DecidableEq, Repr

/-- Observable operations of the backend, in program order. -/
inductive Event where
  | connect_to_host_async (callback : Callback)
  | write (bytes : List gchar)
  | close_output
  | close_input
  | warning (message : CStr)
  deriving DecidableEq, Repr

/-- How a callback ends. -/
inductive Completion where
  | returned
  | null_dereference
  deriving DecidableEq, Repr

/-- Result of running a callback: the backend record, what was done, and how
the callback ended. -/
structure Outcome where
  backend : GGNTPNotificationBackend
  events : List Event
  completion : Completion
  deriving DecidableEq, Repr

/-- What the transport hands to `gntp_register_callback`.

* `connect_error`: the error set by `g_socket_client_connect_to_host_finish`;
* `input_buf`: the bytes the automatic array `input_buf[12]` holds on entry
  (it is never initialised);
* `read_data`: the bytes `g_input_stream_read` delivers;
* `read_error`: the error set by `g_input_stream_read`. -/
structure RegisterResult where
  connect_error : Option GError
  input_buf : List gchar
  read_data : List gchar
  read_error : Option GError
  deriving DecidableEq, Repr

/-- What the transport hands to `gntp_notify_callback`: the connection error,
and the value of the test `notification->icon` of line 133 (a member the
struct declaration does not have). -/
structure NotifyResult where
  connect_error : Option GError
  icon : Bool
  deriving DecidableEq, Repr

/-! ## Library routines used by the backend -/

/-- Bytes stored by `g_input_stream_read (input, buffer, count, NULL, &error)`:
at most `count` bytes of `data` are stored. -/
def fragment (count : Nat) (data : List gchar) : List gchar := data.take count

/-- Contents of `buffer` after `g_input_stream_read`: the bytes read overwrite
the start of the buffer, the rest keeps what it held. -/
def g_input_stream_read (buffer : List gchar) (count : Nat) (data : List gchar) :
    List gchar :=
  fragment count data ++ buffer.drop (fragment count data).length

/-- The loop `while (p <= end && *p)` of `g_strstr_len`: the list is the memory
from `p` on, `positions` counts the values of `p` not beyond `end`.  Each round
compares the needle with the bytes at `p` and otherwise moves `p` by one. -/
def g_strstr_len_scan (needle : CStr) : List gchar → Nat → Bool
  | [], _ => false
  | c :: rest, positions =>
    if positions = 0 then false
    else if c = 0 then false
    else if needle.isPrefixOf (c :: rest) then true
    else g_strstr_len_scan needle rest (positions - 1)

/-- Modelled from the spec: `g_strstr_len` is a string utility of the library
(glib/gstrfuncs.c), not part of the backend file.  The spec only says that the
fragment "contains the substring"; the definition follows the routine itself
for a non-negative `haystack_len`: an empty needle is found at once, a
haystack shorter than the needle has no match, and otherwise the start
positions `0 .. haystack_len - needle_len` are tried in order until a match, or
until the byte at the position is NUL.  The result is `true` when the routine
returns a non-NULL pointer. -/
def g_strstr_len (haystack : List gchar) (haystack_len : Nat) (needle : CStr) : Bool :=
  if needle.length = 0 then true
  else if haystack_len < needle.length then false
  else g_strstr_len_scan needle (haystack.take haystack_len)
    (haystack_len - needle.length + 1)

/-! ## The backend -/

/-- Function `gntp_notification_new` (lines 84-96). -/
def gntp_notification_new (notification : GNotification) : GGNTPNotification :=
  { title := notification.title
    text := notification.body
    urgent := notification.urgent }

/-- Function `gntp_write` (lines 98-106). -/
def gntp_write (text : CStr) : List Event :=
  let formatted_text := g_snprintf 2048 (text ++ ascii "\r\n")
  [Event.write (formatted_text.take (strlen formatted_text))]

/-- Function `gntp_notify_callback` (lines 108-152).  It does not touch the backend
record. -/
def gntp_notify_callback (app_id : CStr) (notification : GGNTPNotification)
    (res : NotifyResult) : List Event :=
  match res.connect_error with
  | some _ => [Event.warning (ascii "Could not connect to GNTP service.")]
  | none =>
    let app_str := g_snprintf 512 (ascii "Application-Name: " ++ app_id)
    let notify_title := g_snprintf 512 (ascii "Notification-Title: " ++ notification.title)
    let notify_text := g_snprintf 1024 (ascii "Notification-Text: " ++ notification.text)
    let notify_text :=
      if res.icon then g_snprintf 1024 (ascii "Notification-Text: " ++ notification.text)
      else notify_text
    gntp_write (ascii "GNTP/1.0 NOTIFY NONE")
      ++ gntp_write app_str
      ++ gntp_write (ascii "Notification-Name: Notification")
      ++ gntp_write notify_title
      ++ gntp_write notify_text
      ++ (if notification.urgent then gntp_write (ascii "Notification-Priority: 2") else [])
      ++ gntp_write []
      ++ [Event.close_output]

/-- Function `gntp_notify` (lines 154-162). -/
def gntp_notify (notification : GGNTPNotification) : List Event :=
  [Event.connect_to_host_async (Callback.gntp_notify_callback notification)]

/-- The loop of lines 210-217: one `gntp_notify` per node, then the list
pointer moves to the next node.  Returns the events and the final value of
`backend->notifications`. -/
def drain_notifications : List GGNTPNotification → List Event × List GGNTPNotification
  | [] => ([], [])
  | notification :: next =>
    let rest := drain_notifications next
    (gntp_notify notification ++ rest.1, rest.2)

/-- Function `gntp_register_callback` (lines 164-228). -/
def gntp_register_callback (backend : GGNTPNotificationBackend) (app_id : CStr)
    (res : RegisterResult) : Outcome :=
  let backend := { backend with is_registering := false }
  match res.connect_error with
  | some _ =>
    { backend := backend
      events := [Event.warning (ascii "Could not connect to GNTP service.")]
      completion := Completion.returned }
  | none =>
    let app_str := g_snprintf 512 (ascii "Application-Name: " ++ app_id)
    let written :=
      gntp_write (ascii "GNTP/1.0 REGISTER NONE")
        ++ gntp_write app_str
        ++ gntp_write (ascii "Notifications-Count: 1")
        ++ gntp_write []
        ++ gntp_write (ascii "Notification-Name: Notification")
        ++ gntp_write (ascii "Notification-Enabled: True")
        ++ gntp_write []
        ++ [Event.close_output]
    let input_buf := g_input_stream_read res.input_buf 12 res.read_data
    if res.read_error = none ∧ g_strstr_len input_buf 12 (ascii "-OK") = true then
      let drained := drain_notifications backend.notifications
      { backend := { backend with is_registered := true, notifications := drained.2 }
        events := written ++ drained.1 ++ [Event.close_input]
        completion := Completion.returned }
    else
      match res.read_error with
      | some error =>
        { backend := backend
          events := written
            ++ [Event.warning (ascii "GNTP registration failed."),
                Event.warning error.message, Event.close_input]
          completion := Completion.returned }
      | none =>
        { backend := backend
          events := written ++ [Event.warning (ascii "GNTP registration failed.")]
          completion := Completion.null_dereference }

/-- Function `g_gntp_notification_backend_is_supported` (lines 244-252). -/
def g_gntp_notification_backend_is_supported : Bool := true

/-- Function `g_gntp_notification_backend_send_notification` (lines 254-280). -/
def g_gntp_notification_backend_send_notification (self : GGNTPNotificationBackend)
    (_id : CStr) (notification : GNotification) :
    GGNTPNotificationBackend × List Event :=
  let gntp_notification := gntp_notification_new notification
  if !self.is_registered then
    let self := { self with notifications := self.notifications ++ [gntp_notification] }
    if !self.is_registering then
      ({ self with is_registering := true },
        [Event.connect_to_host_async Callback.gntp_register_callback])
    else (self, [])
  else (self, gntp_notify gntp_notification)

/-- Function `g_gntp_notification_backend_withdraw_notification` (lines 282-287). -/
def g_gntp_notification_backend_withdraw_notification (backend : GGNTPNotificationBackend)
    (_id : CStr) : GGNTPNotificationBackend × List Event :=
  (backend, [])

/-- Function `g_gntp_notification_backend_init` (lines 289-295). -/
def g_gntp_notification_backend_init : GGNTPNotificationBackend :=
  { is_registered := false
    is_registering := false
    notifications := [] }

/-! ## The backend inside the main loop -/

/-- The backend together with the asynchronous connections it has opened whose
callback has not run yet. -/
structure World where
  backend : GGNTPNotificationBackend
  registering : Nat
  delivering : List GGNTPNotification
  trace : List Event
  deriving DecidableEq, Repr

/-- What the main loop may do next. -/
inductive Action where
  | send (id : CStr) (notification : GNotification)
  | withdraw (id : CStr)
  | register_callback (res : RegisterResult)
  | notify_callback (i : Nat) (res : NotifyResult)
  deriving DecidableEq, Repr

/-- Number of REGISTER connections opened by a run of events. -/
def opened_register (events : List Event) : Nat :=
  events.count (Event.connect_to_host_async Callback.gntp_register_callback)

/-- The records for which a NOTIFY connection is opened by a run of events, in
order. -/
def opened_notify : List Event → List GGNTPNotification
  | [] => []
  | Event.connect_to_host_async (Callback.gntp_notify_callback n) :: rest =>
    n :: opened_notify rest
  | _ :: rest => opened_notify rest

/-- The bytes handed to `g_output_stream_write` by a run of events, in order. -/
def written_bytes : List Event → List gchar
  | [] => []
  | Event.write bytes :: rest => bytes ++ written_bytes rest
  | _ :: rest => written_bytes rest

/-- The state right after backend construction: nothing in flight. -/
def World.initial : World :=
  { backend := g_gntp_notification_backend_init
    registering := 0
    delivering := []
    trace := [] }

/-- Record the effects of one piece of backend code. -/
def World.absorb (w : World) (backend : GGNTPNotificationBackend) (events : List Event) :
    World :=
  { backend := backend
    registering := w.registering + opened_register events
    delivering := w.delivering ++ opened_notify events
    trace := w.trace ++ events }

/-- One step of the main loop.  `none`: the action is not possible (no such
connection in flight), or the process died in the callback. -/
def step (app_id : CStr) (w : World) : Action → Option World
  | Action.send id notification =>
    let r := g_gntp_notification_backend_send_notification w.backend id notification
    some (w.absorb r.1 r.2)
  | Action.withdraw id =>
    let r := g_gntp_notification_backend_withdraw_notification w.backend id
    some (w.absorb r.1 r.2)
  | Action.register_callback res =>
    if w.registering = 0 then none
    else
      let out := gntp_register_callback w.backend app_id res
      match out.completion with
      | Completion.returned =>
        some ({ w with registering := w.registering - 1 }.absorb out.backend out.events)
      | Completion.null_dereference => none
  | Action.notify_callback i res =>
    match w.delivering.get? i with
    | none => none
    | some notification =>
      some ({ w with delivering := w.delivering.eraseIdx i }.absorb w.backend
        (gntp_notify_callback app_id notification res))

/-- A sequence of steps. -/
def run (app_id : CStr) : World → List Action → Option World
  | w, [] => some w
  | w, a :: rest =>
    match step app_id w a with
    | none => none
    | some w1 => run app_id w1 rest

/-- The backend after a series of `send` calls, with everything they did. -/
def send_all : GGNTPNotificationBackend → List GNotification →
    GGNTPNotificationBackend × List Event
  | backend, [] => (backend, [])
  | backend, n :: rest =>
    let r := g_gntp_notification_backend_send_notification backend [] n
    let r2 := send_all r.1 rest
    (r2.1, r.2 ++ r2.2)

/-- Property of the states of the main loop used throughout: the number of
REGISTER connections in flight is 1 when `is_registering` is set and 0
otherwise; a registered backend is not registering and has an empty queue. -/
def World.consistent (w : World) : Prop :=
  w.registering = (if w.backend.is_registering = true then 1 else 0) ∧
  (w.backend.is_registered = true → w.backend.is_registering = false) ∧
  (w.backend.is_registered = true → w.backend.notifications = [])

/-! ## Concrete inputs used by the examples -/

/-- An application id. -/
def example_app_id : CStr := ascii "org.example.App"

/-- An urgent notification. -/
def example_first : GNotification :=
  { title := ascii "Hi", body := ascii "There", urgent := true }

/-- The same notification, not urgent. -/
def example_second : GNotification :=
  { title := ascii "Hi", body := ascii "There", urgent := false }

/-- Another notification. -/
def example_third : GNotification :=
  { title := ascii "Build", body := ascii "Done", urgent := false }

/-- The daemon accepts: the twelve bytes read are the start of
`GNTP/1.0 -OK NONE`. -/
def example_accepted : RegisterResult :=
  { connect_error := none, input_buf := List.replicate 12 0,
    read_data := ascii "GNTP/1.0 -OK", read_error := none }

/-- The daemon rejects: the twelve bytes read are the start of
`GNTP/1.0 -ERROR NONE`. -/
def example_rejected : RegisterResult :=
  { connect_error := none, input_buf := List.replicate 12 0,
    read_data := ascii "GNTP/1.0 -ER", read_error := none }

/-- The daemon closes the connection without answering: the read returns no
byte and no error, and the array still holds what was on the stack, here the
text `GNTP/1.0 -OK`. -/
def example_end_of_stream : RegisterResult :=
  { connect_error := none, input_buf := ascii "GNTP/1.0 -OK",
    read_data := [], read_error := none }

/-- A twelve-byte answer whose first byte is NUL and whose last three bytes are
`-OK`. -/
def example_nul_first : RegisterResult :=
  { connect_error := none, input_buf := List.replicate 12 0,
    read_data := 0 :: ascii "NTP/1.0 -OK", read_error := none }

/-- Three `send` calls. -/
def example_sends : List Action :=
  [Action.send (ascii "a") example_first, Action.send (ascii "b") example_second,
   Action.send (ascii "c") example_third]

/-- Three `send` calls, a successful registration, then deliveries, one more
`send` and a `withdraw`. -/
def example_session : List Action :=
  example_sends ++
    [Action.register_callback example_accepted,
     Action.notify_callback 1 { connect_error := none, icon := false },
     Action.send (ascii "d") example_first,
     Action.withdraw (ascii "a"),
     Action.notify_callback 0
       { connect_error := some { message := ascii "refused" }, icon := false }]

/-- The state reached from the initial state by a list of actions (the initial
state itself if the run stops early). -/
def example_world (actions : List Action) : World :=
  (run example_app_id World.initial actions).getD World.initial

/-! ## The byte stream as lines -/

/-- Reading of a byte stream as CRLF-terminated lines; `cur` holds the bytes of
the line being read.  A line ends at an LF that comes right after a CR.  The
result is the list of complete lines, in order and without their CRLF, and the
bytes left after the last CRLF. -/
def split_lines_from : List gchar → List gchar → List (List gchar) × List gchar
  | [], cur => ([], cur)
  | c :: rest, cur =>
    if c = 10 ∧ cur.getLast? = some 13 then
      (cur.dropLast :: (split_lines_from rest []).1, (split_lines_from rest []).2)
    else split_lines_from rest (cur ++ [c])

/-- The CRLF-terminated lines of a byte stream, and what follows the last of
them. -/
def split_lines (bytes : List gchar) : List (List gchar) × List gchar :=
  split_lines_from bytes []

/-- Whether an event is a warning. -/
def Event.is_warning : Event → Bool
  | Event.warning _ => true
  | _ => false

/-! ## Concrete inputs used by the examples, continued -/

/-- A connection that was established. -/
def example_connected : NotifyResult := { connect_error := none, icon := false }

/-- A connection attempt that failed. -/
def example_refused : NotifyResult :=
  { connect_error := some { message := ascii "Connection refused" }, icon := false }

/-- A registration whose connection attempt failed. -/
def example_unreachable : RegisterResult :=
  { connect_error := some { message := ascii "Connection refused" },
    input_buf := List.replicate 12 0, read_data := [], read_error := none }

/-- A record whose title holds two CRLF pairs. -/
def example_injected : GGNTPNotification :=
  { title := ascii "a\r\n\r\nb", text := ascii "There", urgent := false }

/-- An urgent record whose body holds two lines separated by a bare LF. -/
def example_multiline : GGNTPNotification :=
  { title := ascii "Hi", text := ascii "line1\nline2", urgent := true }

/-- A record with a title of 600 bytes and a body of 1100 bytes. -/
def example_long : GGNTPNotification :=
  { title := List.replicate 600 65, text := List.replicate 1100 66, urgent := true }

/-! ## Auxiliary facts -/

theorem written_bytes_append (a b : List Event) :
    written_bytes (a ++ b) = written_bytes a ++ written_bytes b := by
  induction a with
  | nil => rfl
  | cons e rest ih => cases e <;> simp [written_bytes, ih]

theorem opened_notify_append (a b : List Event) :
    opened_notify (a ++ b) = opened_notify a ++ opened_notify b := by
  induction a with
  | nil => rfl
  | cons e rest ih =>
    cases e with
    | connect_to_host_async cb => cases cb <;> simp [opened_notify, ih]
    | _ => simp [opened_notify, ih]

theorem opened_register_append (a b : List Event) :
    opened_register (a ++ b) = opened_register a + opened_register b := by
  simp [opened_register]

theorem crlf_length : (ascii "\r\n").length = 2 := by decide

/-- A line of at most 2045 bytes leaves `gntp_write` whole, with its CRLF. -/
theorem gntp_write_of_fits (text : CStr) (h : text.length ≤ 2045) :
    gntp_write text = [Event.write (text ++ ascii "\r\n")] := by
  have hlen : (text ++ ascii "\r\n").length ≤ 2047 := by
    rw [List.length_append, crlf_length]; omega
  simp [gntp_write, g_snprintf, strlen, List.take_of_length_le hlen]

theorem g_snprintf_of_fits (n : Nat) (s : CStr) (h : s.length ≤ n - 1) :
    g_snprintf n s = s := by
  simp [g_snprintf, List.take_of_length_le h]

theorem g_snprintf_length_le (n : Nat) (s : CStr) : (g_snprintf n s).length ≤ n - 1 := by
  simp [g_snprintf]

theorem gntp_write_opens_nothing (text : CStr) :
    opened_notify (gntp_write text) = [] ∧ opened_register (gntp_write text) = 0 := by
  simp [gntp_write, opened_notify, opened_register]

/-- The drain loop opens one NOTIFY connection per queued record, in queue
order, and ends with the list pointer at NULL. -/
theorem drain_notifications_spec (l : List GGNTPNotification) :
    opened_notify (drain_notifications l).1 = l ∧
    opened_register (drain_notifications l).1 = 0 ∧
    (drain_notifications l).2 = [] := by
  induction l with
  | nil => simp [drain_notifications, opened_notify, opened_register]
  | cons n rest ih =>
    obtain ⟨h1, h2, h3⟩ := ih
    simp only [opened_register] at h2
    simp [drain_notifications, gntp_notify, opened_notify, opened_register, h1, h2, h3]

theorem written_bytes_drain (l : List GGNTPNotification) :
    written_bytes (drain_notifications l).1 = [] := by
  induction l with
  | nil => rfl
  | cons n rest ih => simp [drain_notifications, gntp_notify, written_bytes, ih]

/-- The search loop finds a needle that starts with a non-NUL byte when no NUL
byte precedes it and its start is among the positions tried. -/
theorem scan_finds (c : gchar) (t : CStr) (hc : c ≠ 0) (pre rest : List gchar)
    (hnul : (0 : gchar) ∉ pre) (positions : Nat) (hpos : pre.length < positions) :
    g_strstr_len_scan (c :: t) (pre ++ (c :: t) ++ rest) positions = true := by
  induction pre generalizing positions with
  | nil =>
    have h0 : positions ≠ 0 := by simp at hpos; omega
    have hp : (c :: t).isPrefixOf (c :: (t ++ rest)) = true := by
      rw [List.isPrefixOf_iff_prefix]; exact ⟨rest, rfl⟩
    simp only [List.nil_append, List.cons_append, g_strstr_len_scan, h0, hc, if_false,
      List.append_eq, hp, if_true]
  | cons p pre ih =>
    have h0 : positions ≠ 0 := by simp at hpos; omega
    have hp0 : p ≠ 0 := by
      intro h; apply hnul; simp [h]
    have hnul2 : (0 : gchar) ∉ pre := by
      intro h; apply hnul; simp [h]
    have hrec := ih hnul2 (positions - 1) (by simp at hpos; omega)
    simp only [List.cons_append, g_strstr_len_scan, h0, hp0, if_false]
    split
    · rfl
    · simpa using hrec

/-- The check of line 205 succeeds when the bytes read contain `-OK` with no
NUL byte before it, whatever the array held before the read. -/
theorem strstr_finds_ok (buffer data pre post : List gchar)
    (hfrag : fragment 12 data = pre ++ ascii "-OK" ++ post) (hnul : (0 : gchar) ∉ pre) :
    g_strstr_len (g_input_stream_read buffer 12 data) 12 (ascii "-OK") = true := by
  have hlen : (fragment 12 data).length ≤ 12 := by simp [fragment]
  rw [hfrag] at hlen
  have h3 : (ascii "-OK").length = 3 := by decide
  simp only [List.length_append, h3] at hlen
  have hok : ascii "-OK" = 45 :: ascii "OK" := by decide
  unfold g_strstr_len g_input_stream_read
  rw [hfrag]
  simp only [h3]
  have htake : (pre ++ ascii "-OK" ++ post ++
      List.drop (pre ++ ascii "-OK" ++ post).length buffer).take 12
      = pre ++ ascii "-OK" ++ ((post ++
          List.drop (pre ++ ascii "-OK" ++ post).length buffer).take (12 - (pre.length + 3))) := by
    rw [List.append_assoc (pre ++ ascii "-OK"), List.take_append_eq_append_take,
      List.take_of_length_le (by simp [h3]; omega)]
    simp [h3]
  rw [htake, hok]
  simpa using scan_finds 45 (ascii "OK") (by decide) pre _ hnul 10 (by omega)

/-- Unregistered `send`: the record goes to the end of the queue. -/
theorem send_unregistered (self : GGNTPNotificationBackend) (id : CStr)
    (notification : GNotification) (h : self.is_registered = false) :
    (g_gntp_notification_backend_send_notification self id notification).1.notifications =
      self.notifications ++ [gntp_notification_new notification] ∧
    (g_gntp_notification_backend_send_notification self id notification).1.is_registered
      = false ∧
    opened_notify
      (g_gntp_notification_backend_send_notification self id notification).2 = [] := by
  cases hr : self.is_registering <;>
    simp [g_gntp_notification_backend_send_notification, h, hr, opened_notify]

/-- A series of `send` calls on an unregistered backend queues the records in
call order and opens no NOTIFY connection. -/
theorem send_all_spec (backend : GGNTPNotificationBackend) (ns : List GNotification)
    (h : backend.is_registered = false) :
    (send_all backend ns).1.is_registered = false ∧
    (send_all backend ns).1.notifications =
      backend.notifications ++ ns.map gntp_notification_new ∧
    opened_notify (send_all backend ns).2 = [] := by
  induction ns generalizing backend with
  | nil => simp [send_all, opened_notify, h]
  | cons n rest ih =>
    have hs := send_unregistered backend [] n h
    obtain ⟨h1, h2, h3⟩ := ih _ hs.2.1
    refine ⟨by simpa [send_all] using h1, ?_, ?_⟩
    · simp only [send_all, h2, hs.1, List.map_cons, List.append_assoc, List.singleton_append]
    · simp only [send_all, opened_notify_append, h3, hs.2.2, List.append_nil]

/-- The success branch of `gntp_register_callback` (lines 205-218). -/
theorem register_success (backend : GGNTPNotificationBackend) (app_id : CStr)
    (res : RegisterResult) (hconn : res.connect_error = none)
    (hread : res.read_error = none)
    (hfound : g_strstr_len (g_input_stream_read res.input_buf 12 res.read_data) 12
      (ascii "-OK") = true) :
    (gntp_register_callback backend app_id res).completion = Completion.returned ∧
    opened_notify (gntp_register_callback backend app_id res).events =
      backend.notifications ∧
    opened_register (gntp_register_callback backend app_id res).events = 0 ∧
    (gntp_register_callback backend app_id res).backend =
      { is_registered := true, is_registering := false, notifications := [] } := by
  have hd := drain_notifications_spec backend.notifications
  have hw := gntp_write_opens_nothing
  unfold gntp_register_callback
  simp only [hconn, hread, hfound, and_self, if_true]
  refine ⟨trivial, ?_, ?_, ?_⟩
  · simp [opened_notify_append, hw, hd.1, opened_notify]
  · simp only [opened_register_append, hw, hd.2.1]
    simp [opened_register]
  · simp [hd.2.2]

/-- A registration whose connection attempt or verifying read reports an error
returns with the queue and `is_registered` untouched and opens no connection. -/
theorem register_failure_keeps_queue (backend : GGNTPNotificationBackend) (app_id : CStr)
    (res : RegisterResult)
    (hfail : res.connect_error ≠ none ∨ res.read_error ≠ none) :
    (gntp_register_callback backend app_id res).completion = Completion.returned ∧
    (gntp_register_callback backend app_id res).backend =
      { backend with is_registering := false } ∧
    opened_notify (gntp_register_callback backend app_id res).events = [] ∧
    opened_register (gntp_register_callback backend app_id res).events = 0 := by
  have hw := gntp_write_opens_nothing
  unfold gntp_register_callback
  cases hc : res.connect_error with
  | some e => simp [opened_notify, opened_register]
  | none =>
    cases hr : res.read_error with
    | none => simp [hc, hr] at hfail
    | some e =>
      simp only [reduceCtorEq, false_and, if_false]
      refine ⟨trivial, trivial, ?_, ?_⟩
      · simp [opened_notify_append, hw, opened_notify]
      · simp only [opened_register_append, hw]
        simp [opened_register]

/-- Whenever the read reports no error and the check of line 205 finds no
`-OK`, line 222 reads `error->message` through a NULL `error`. -/
theorem register_rejection_dereferences_null (backend : GGNTPNotificationBackend)
    (app_id : CStr) (res : RegisterResult)
    (hconn : res.connect_error = none) (hread : res.read_error = none)
    (hmiss : g_strstr_len (g_input_stream_read res.input_buf 12 res.read_data) 12
      (ascii "-OK") = false) :
    (gntp_register_callback backend app_id res).completion = Completion.null_dereference := by
  unfold gntp_register_callback
  simp [hconn, hread, hmiss]

/-- The bytes written by `gntp_register_callback` once connected are those of
its seven `gntp_write` calls. -/
theorem register_written (backend : GGNTPNotificationBackend) (app_id : CStr)
    (res : RegisterResult) (hconn : res.connect_error = none) :
    written_bytes (gntp_register_callback backend app_id res).events =
      written_bytes (gntp_write (ascii "GNTP/1.0 REGISTER NONE")
        ++ gntp_write (g_snprintf 512 (ascii "Application-Name: " ++ app_id))
        ++ gntp_write (ascii "Notifications-Count: 1")
        ++ gntp_write []
        ++ gntp_write (ascii "Notification-Name: Notification")
        ++ gntp_write (ascii "Notification-Enabled: True")
        ++ gntp_write []) := by
  unfold gntp_register_callback
  simp only [hconn]
  split
  · simp [written_bytes_append, written_bytes, written_bytes_drain]
  · cases res.read_error <;> simp [written_bytes_append, written_bytes]

/-- The bytes written by `gntp_notify_callback` once connected are those of its
`gntp_write` calls. -/
theorem notify_written (app_id : CStr) (notification : GGNTPNotification)
    (res : NotifyResult) (hconn : res.connect_error = none) :
    written_bytes (gntp_notify_callback app_id notification res) =
      written_bytes (gntp_write (ascii "GNTP/1.0 NOTIFY NONE")
        ++ gntp_write (g_snprintf 512 (ascii "Application-Name: " ++ app_id))
        ++ gntp_write (ascii "Notification-Name: Notification")
        ++ gntp_write (g_snprintf 512 (ascii "Notification-Title: " ++ notification.title))
        ++ gntp_write (g_snprintf 1024 (ascii "Notification-Text: " ++ notification.text))
        ++ (if notification.urgent then gntp_write (ascii "Notification-Priority: 2") else [])
        ++ gntp_write []) := by
  unfold gntp_notify_callback
  simp only [hconn]
  cases res.icon <;> simp [written_bytes_append, written_bytes]

theorem notify_callback_opens_nothing (app_id : CStr) (n : GGNTPNotification)
    (res : NotifyResult) :
    opened_notify (gntp_notify_callback app_id n res) = [] ∧
    opened_register (gntp_notify_callback app_id n res) = 0 := by
  have hw := gntp_write_opens_nothing
  unfold gntp_notify_callback
  cases res.connect_error with
  | some e => simp [opened_notify, opened_register]
  | none =>
    cases n.urgent <;> cases res.icon <;>
      simp [opened_notify_append, opened_register_append, hw] <;>
      simp [opened_notify, opened_register]

/-- What `gntp_register_callback` does to the backend record in every case. -/
theorem register_callback_effects (backend : GGNTPNotificationBackend) (app_id : CStr)
    (res : RegisterResult) :
    (gntp_register_callback backend app_id res).backend.is_registering = false ∧
    opened_register (gntp_register_callback backend app_id res).events = 0 ∧
    ((gntp_register_callback backend app_id res).backend =
        { is_registered := true, is_registering := false, notifications := [] } ∨
      (gntp_register_callback backend app_id res).backend =
        { backend with is_registering := false }) := by
  cases hc : res.connect_error with
  | some e =>
    have h := register_failure_keeps_queue backend app_id res (Or.inl (by simp [hc]))
    exact ⟨by rw [h.2.1], h.2.2.2, Or.inr h.2.1⟩
  | none =>
    cases hr : res.read_error with
    | some e =>
      have h := register_failure_keeps_queue backend app_id res (Or.inr (by simp [hr]))
      exact ⟨by rw [h.2.1], h.2.2.2, Or.inr h.2.1⟩
    | none =>
      cases hf : g_strstr_len (g_input_stream_read res.input_buf 12 res.read_data) 12
          (ascii "-OK") with
      | true =>
        have h := register_success backend app_id res hc hr hf
        exact ⟨by rw [h.2.2.2], h.2.2.1, Or.inl h.2.2.2⟩
      | false =>
        have hw := gntp_write_opens_nothing
        unfold gntp_register_callback
        simp only [hc, hr, hf, Bool.false_eq_true, and_false, if_false]
        refine ⟨trivial, ?_, Or.inr trivial⟩
        simp only [opened_register_append, hw]
        simp [opened_register]

theorem initial_consistent : World.initial.consistent := by
  simp [World.consistent, World.initial, g_gntp_notification_backend_init]

/-- Every step of the main loop keeps `World.consistent`. -/
theorem step_consistent (app_id : CStr) (w w1 : World) (a : Action)
    (hw : w.consistent) (hstep : step app_id w a = some w1) : w1.consistent := by
  obtain ⟨h1, h2, h3⟩ := hw
  cases a with
  | send id n =>
    simp only [step, Option.some.injEq] at hstep
    subst hstep
    cases hr : w.backend.is_registered <;> cases hg : w.backend.is_registering <;>
      simp_all [World.consistent, World.absorb, g_gntp_notification_backend_send_notification,
        opened_register, gntp_notify]
  | withdraw id =>
    simp only [step, Option.some.injEq] at hstep
    subst hstep
    simp_all [World.consistent, World.absorb,
      g_gntp_notification_backend_withdraw_notification, opened_register]
  | register_callback res =>
    simp only [step] at hstep
    split at hstep
    · simp at hstep
    · rename_i hne
      split at hstep
      · simp only [Option.some.injEq] at hstep
        subst hstep
        obtain ⟨e1, e2, e3⟩ := register_callback_effects w.backend app_id res
        have hg : w.backend.is_registering = true := by
          by_contra hcon
          simp [hcon] at h1
          exact hne h1
        simp only [hg, if_true] at h1
        refine ⟨?_, ?_, ?_⟩
        · simp [World.absorb, e1, e2, h1]
        · intro _; simpa [World.absorb] using e1
        · intro hreg
          simp only [World.absorb] at hreg ⊢
          rcases e3 with e3 | e3
          · rw [e3]
          · rw [e3] at hreg ⊢
            exact h3 hreg
      · simp at hstep
  | notify_callback i res =>
    simp only [step] at hstep
    split at hstep
    · simp at hstep
    · rename_i n _
      simp only [Option.some.injEq] at hstep
      subst hstep
      have ho := (notify_callback_opens_nothing app_id n res).2
      exact ⟨by simpa [World.absorb, ho] using h1, by simpa [World.absorb] using h2,
        by simpa [World.absorb] using h3⟩

/-- Every state reached from a consistent state is consistent. -/
theorem run_consistent (app_id : CStr) (actions : List Action) (w w1 : World)
    (hw : w.consistent) (hrun : run app_id w actions = some w1) : w1.consistent := by
  induction actions generalizing w with
  | nil =>
    simp only [run, Option.some.injEq] at hrun
    exact hrun ▸ hw
  | cons a rest ih =>
    simp only [run] at hrun
    split at hrun
    · simp at hrun
    · rename_i w2 hstep
      exact ih w2 (step_consistent app_id w w2 a hw hstep) hrun

/-! ## Registration outcome and the queue -/

/-- C1 (amended): take a backend with `is_registered = false`, let any series of
`send` calls extend its queue, and let the registration callback run with a
successful connection and a read without error whose bytes contain `-OK` with
no NUL byte before it.  Then the callback returns, it opens exactly one NOTIFY
connection per queued record in queue order (the earlier entries, then one
record per `send` in call order), opens no REGISTER connection, sets
`is_registered` and leaves the queue empty. -/
theorem register_success_delivers_queue (b0 : GGNTPNotificationBackend)
    (ns : List GNotification) (app_id : CStr) (res : RegisterResult)
    (pre post : List gchar)
    (hreg : b0.is_registered = false)
    (hconn : res.connect_error = none) (hread : res.read_error = none)
    (hfrag : fragment 12 res.read_data = pre ++ ascii "-OK" ++ post)
    (hnul : (0 : gchar) ∉ pre) :
    (gntp_register_callback (send_all b0 ns).1 app_id res).completion
      = Completion.returned ∧
    opened_notify (gntp_register_callback (send_all b0 ns).1 app_id res).events
      = b0.notifications ++ ns.map gntp_notification_new ∧
    opened_register (gntp_register_callback (send_all b0 ns).1 app_id res).events = 0 ∧
    (gntp_register_callback (send_all b0 ns).1 app_id res).backend.is_registered = true ∧
    (gntp_register_callback (send_all b0 ns).1 app_id res).backend.notifications = [] := by
  have hfound := strstr_finds_ok res.input_buf res.read_data pre post hfrag hnul
  obtain ⟨h1, h2, h3, h4⟩ := register_success (send_all b0 ns).1 app_id res hconn hread hfound
  refine ⟨h1, ?_, h3, ?_, ?_⟩
  · rw [h2, (send_all_spec b0 ns hreg).2.1]
  · rw [h4]
  · rw [h4]

/-- Witness of C1: three `send` calls on the fresh backend, then the answer
`GNTP/1.0 -OK` read in full: three NOTIFY connections in submission order, the
backend registered, the queue empty. -/
theorem register_success_delivers_queue_witness :
    opened_notify (gntp_register_callback
        (send_all g_gntp_notification_backend_init
          [example_first, example_second, example_third]).1
        example_app_id example_accepted).events
      = [gntp_notification_new example_first, gntp_notification_new example_second,
         gntp_notification_new example_third] ∧
    (gntp_register_callback
        (send_all g_gntp_notification_backend_init
          [example_first, example_second, example_third]).1
        example_app_id example_accepted).backend
      = { is_registered := true, is_registering := false, notifications := [] } :=
  have h := register_success_delivers_queue g_gntp_notification_backend_init
    [example_first, example_second, example_third] example_app_id example_accepted
    (ascii "GNTP/1.0 ") [] rfl rfl rfl (by decide) (by decide)
  ⟨h.2.1, by decide⟩

/-- Counterexample to C1 as stated: one notification is queued, the connection
succeeds and the read returns twelve bytes without error which contain `-OK`
after a leading NUL byte.  The search stops at the NUL, so no NOTIFY connection
is opened, `is_registered` stays false, the record stays queued, and the
callback ends in the rejection branch at the NULL `error`. -/
theorem register_success_counterexample :
    (send_all g_gntp_notification_backend_init [example_first]).1.is_registered = false ∧
    example_nul_first.connect_error = none ∧ example_nul_first.read_error = none ∧
    ascii "-OK" <:+: fragment 12 example_nul_first.read_data ∧
    (gntp_register_callback (send_all g_gntp_notification_backend_init [example_first]).1
      example_app_id example_nul_first).completion = Completion.null_dereference ∧
    opened_notify (gntp_register_callback
      (send_all g_gntp_notification_backend_init [example_first]).1
      example_app_id example_nul_first).events = [] ∧
    (gntp_register_callback (send_all g_gntp_notification_backend_init [example_first]).1
      example_app_id example_nul_first).backend
      = { is_registered := false, is_registering := false,
          notifications := [gntp_notification_new example_first] } := by
  decide

/-- C2 (failing inputs): with one notification queued, (a) the connection
succeeds and the read returns `GNTP/1.0 -ER` without error, a fragment without
`-OK`: the callback does not return, it reads `error->message` through a NULL
`error`; (b) the connection succeeds and the read returns no byte and no error
while the array still holds `GNTP/1.0 -OK`: the fragment read is empty, yet
`is_registered` becomes true, the queue is emptied and a NOTIFY connection is
opened. -/
theorem register_failure_failing_input :
    example_rejected.connect_error = none ∧ example_rejected.read_error = none ∧
    ¬ (ascii "-OK" <:+: fragment 12 example_rejected.read_data) ∧
    (gntp_register_callback (send_all g_gntp_notification_backend_init [example_first]).1
      example_app_id example_rejected).completion = Completion.null_dereference ∧
    ¬ (ascii "-OK" <:+: fragment 12 example_end_of_stream.read_data) ∧
    (gntp_register_callback (send_all g_gntp_notification_backend_init [example_first]).1
      example_app_id example_end_of_stream).backend
      = { is_registered := true, is_registering := false, notifications := [] } ∧
    opened_notify (gntp_register_callback
      (send_all g_gntp_notification_backend_init [example_first]).1
      example_app_id example_end_of_stream).events = [gntp_notification_new example_first] := by
  decide

/-! ## Sessions in flight -/

/-- C3: in every state reached from the initial state by `send`, `withdraw`,
registration-callback and delivery-callback steps, at most one REGISTER
connection is opened and not yet completed; and while `is_registering` is true
a `send` only appends its record to the queue and opens no connection. -/
theorem at_most_one_registration_in_flight (app_id : CStr) (actions : List Action)
    (w : World) (hrun : run app_id World.initial actions = some w) :
    w.registering ≤ 1 ∧
    (w.backend.is_registering = true →
      ∀ (id : CStr) (notification : GNotification),
        g_gntp_notification_backend_send_notification w.backend id notification =
          ({ w.backend with
              notifications := w.backend.notifications ++
                [gntp_notification_new notification] }, [])) := by
  obtain ⟨h1, h2, _⟩ := run_consistent app_id actions World.initial w initial_consistent hrun
  constructor
  · rw [h1]; split <;> omega
  · intro hg id notification
    have hr : w.backend.is_registered = false := by
      cases hreg : w.backend.is_registered with
      | false => rfl
      | true => rw [h2 hreg] at hg; cases hg
    simp [g_gntp_notification_backend_send_notification, hr, hg]

/-- Witness of C3: after three `send` calls one REGISTER connection is in
flight. -/
theorem at_most_one_registration_in_flight_witness :
    run example_app_id World.initial example_sends = some (example_world example_sends) ∧
    (example_world example_sends).registering = 1 ∧
    (example_world example_sends).backend.is_registering = true ∧
    (example_world example_sends).registering ≤ 1 :=
  ⟨by decide, by decide, by decide,
    (at_most_one_registration_in_flight example_app_id example_sends
      (example_world example_sends) (by decide)).1⟩

/-- C4: in every state reached from the initial state by `send`, `withdraw`,
registration-callback and delivery-callback steps, `is_registering` and
`is_registered` are not both true. -/
theorem never_registering_and_registered (app_id : CStr) (actions : List Action)
    (w : World) (hrun : run app_id World.initial actions = some w) :
    ¬ (w.backend.is_registering = true ∧ w.backend.is_registered = true) := by
  obtain ⟨_, h2, _⟩ := run_consistent app_id actions World.initial w initial_consistent hrun
  rintro ⟨hg, hr⟩
  rw [h2 hr] at hg
  cases hg

/-- Witness of C4: a run through registration, deliveries and a later `send`. -/
theorem never_registering_and_registered_witness :
    run example_app_id World.initial example_session = some (example_world example_session) ∧
    (example_world example_session).backend.is_registered = true ∧
    ¬ ((example_world example_session).backend.is_registering = true ∧
        (example_world example_session).backend.is_registered = true) :=
  ⟨by decide, by decide,
    never_registering_and_registered example_app_id example_session
      (example_world example_session) (by decide)⟩

/-! ## The entry point `send_notification` -/

/-- C5: when `is_registered` is true, `send_notification` opens exactly one
connection, the one of a Delivery Session carrying a record with the title,
body and urgent flag of the notification; it opens no REGISTER connection and
returns the backend record unchanged (queue and both flags). -/
theorem send_registered_delivers_once (self : GGNTPNotificationBackend) (id : CStr)
    (notification : GNotification) (h : self.is_registered = true) :
    (g_gntp_notification_backend_send_notification self id notification).1 = self ∧
    (g_gntp_notification_backend_send_notification self id notification).2 =
      [Event.connect_to_host_async (Callback.gntp_notify_callback
        { title := notification.title, text := notification.body,
          urgent := notification.urgent })] ∧
    opened_register
      (g_gntp_notification_backend_send_notification self id notification).2 = 0 := by
  simp [g_gntp_notification_backend_send_notification, h, gntp_notify,
    gntp_notification_new, opened_register]

/-- Witness of C5: a registered backend and an urgent notification. -/
theorem send_registered_delivers_once_witness :
    (g_gntp_notification_backend_send_notification
        { is_registered := true, is_registering := false, notifications := [] }
        (ascii "n1") example_first).1
      = { is_registered := true, is_registering := false, notifications := [] } ∧
    (g_gntp_notification_backend_send_notification
        { is_registered := true, is_registering := false, notifications := [] }
        (ascii "n1") example_first).2
      = [Event.connect_to_host_async (Callback.gntp_notify_callback
          { title := ascii "Hi", text := ascii "There", urgent := true })] ∧
    opened_register
      (g_gntp_notification_backend_send_notification
        { is_registered := true, is_registering := false, notifications := [] }
        (ascii "n1") example_first).2 = 0 :=
  send_registered_delivers_once
    { is_registered := true, is_registering := false, notifications := [] }
    (ascii "n1") example_first rfl

/-- C6: when `is_registered` is false, `send_notification` appends one record
(title, body and urgent flag of the notification) at the end of the queue and
keeps the earlier entries in place, opens no NOTIFY connection, leaves
`is_registered` false and `is_registering` true, and opens a REGISTER
connection exactly when `is_registering` was false before the call. -/
theorem send_unregistered_enqueues (self : GGNTPNotificationBackend) (id : CStr)
    (notification : GNotification) (h : self.is_registered = false) :
    (g_gntp_notification_backend_send_notification self id notification).1.notifications =
      self.notifications ++
        [{ title := notification.title, text := notification.body,
           urgent := notification.urgent }] ∧
    (g_gntp_notification_backend_send_notification self id notification).1.is_registered
      = false ∧
    (g_gntp_notification_backend_send_notification self id notification).1.is_registering
      = true ∧
    opened_notify
      (g_gntp_notification_backend_send_notification self id notification).2 = [] ∧
    (g_gntp_notification_backend_send_notification self id notification).2 =
      (if self.is_registering = false
        then [Event.connect_to_host_async Callback.gntp_register_callback] else []) ∧
    (opened_register
      (g_gntp_notification_backend_send_notification self id notification).2 = 1
        ↔ self.is_registering = false) := by
  cases hr : self.is_registering <;>
    simp [g_gntp_notification_backend_send_notification, h, hr, gntp_notification_new,
      opened_register, opened_notify]

/-- Witness of C6: a second `send` while the first registration is in flight
goes to the end of the queue and opens nothing. -/
theorem send_unregistered_enqueues_witness :
    (g_gntp_notification_backend_send_notification
        { is_registered := false, is_registering := true,
          notifications := [gntp_notification_new example_third] }
        (ascii "n2") example_first).1.notifications
      = [gntp_notification_new example_third,
         { title := ascii "Hi", text := ascii "There", urgent := true }] ∧
    (g_gntp_notification_backend_send_notification
        { is_registered := false, is_registering := true,
          notifications := [gntp_notification_new example_third] }
        (ascii "n2") example_first).2 = [] :=
  have h := send_unregistered_enqueues
    { is_registered := false, is_registering := true,
      notifications := [gntp_notification_new example_third] }
    (ascii "n2") example_first rfl
  ⟨h.1, h.2.2.2.2.1⟩

/-! ## The messages on the wire -/

set_option maxRecDepth 8000

/-- C7: for every application id whose line `Application-Name: <id>` is at most
511 bytes long, the bytes `gntp_register_callback` writes on a successful
connection are exactly `GNTP/1.0 REGISTER NONE`, `Application-Name: <id>`,
`Notifications-Count: 1`, an empty line, `Notification-Name: Notification`,
`Notification-Enabled: True` and an empty line, each followed by CRLF, in that
order and nothing else. -/
theorem register_message_bytes (backend : GGNTPNotificationBackend) (app_id : CStr)
    (res : RegisterResult) (hconn : res.connect_error = none)
    (hfit : (ascii "Application-Name: " ++ app_id).length ≤ 511) :
    written_bytes (gntp_register_callback backend app_id res).events =
      ascii "GNTP/1.0 REGISTER NONE\r\n"
        ++ (ascii "Application-Name: " ++ app_id ++ ascii "\r\n")
        ++ ascii "Notifications-Count: 1\r\n"
        ++ ascii "\r\n"
        ++ ascii "Notification-Name: Notification\r\n"
        ++ ascii "Notification-Enabled: True\r\n"
        ++ ascii "\r\n" := by
  rw [register_written backend app_id res hconn, g_snprintf_of_fits 512 _ (by simpa using hfit),
    gntp_write_of_fits (ascii "GNTP/1.0 REGISTER NONE") (by decide),
    gntp_write_of_fits (ascii "Notifications-Count: 1") (by decide),
    gntp_write_of_fits (ascii "Notification-Name: Notification") (by decide),
    gntp_write_of_fits (ascii "Notification-Enabled: True") (by decide),
    gntp_write_of_fits [] (by decide),
    gntp_write_of_fits (ascii "Application-Name: " ++ app_id) (by omega)]
  simp only [written_bytes_append, written_bytes, List.append_nil, List.nil_append]
  have e1 : ascii "GNTP/1.0 REGISTER NONE" ++ ascii "\r\n"
      = ascii "GNTP/1.0 REGISTER NONE\r\n" := by decide
  have e2 : ascii "Notifications-Count: 1" ++ ascii "\r\n"
      = ascii "Notifications-Count: 1\r\n" := by decide
  have e3 : ascii "Notification-Name: Notification" ++ ascii "\r\n"
      = ascii "Notification-Name: Notification\r\n" := by decide
  have e4 : ascii "Notification-Enabled: True" ++ ascii "\r\n"
      = ascii "Notification-Enabled: True\r\n" := by decide
  rw [e1, e2, e3, e4]
  simp only [List.append_assoc]

/-- Witness of C7: the REGISTER message of the application `org.example.App`. -/
theorem register_message_bytes_witness :
    written_bytes (gntp_register_callback g_gntp_notification_backend_init
        (ascii "org.example.App") example_accepted).events =
      ascii ("GNTP/1.0 REGISTER NONE\r\n" ++ "Application-Name: org.example.App\r\n"
        ++ "Notifications-Count: 1\r\n" ++ "\r\n" ++ "Notification-Name: Notification\r\n"
        ++ "Notification-Enabled: True\r\n" ++ "\r\n") :=
  (register_message_bytes g_gntp_notification_backend_init (ascii "org.example.App")
    example_accepted rfl (by decide)).trans (by decide)

/-- C8: for every record and application id whose lines `Application-Name: <id>`
and `Notification-Title: <title>` are at most 511 bytes long and whose line
`Notification-Text: <body>` is at most 1023 bytes long, the bytes
`gntp_notify_callback` writes on a successful connection are exactly
`GNTP/1.0 NOTIFY NONE`, `Application-Name: <id>`,
`Notification-Name: Notification`, `Notification-Title: <title>`,
`Notification-Text: <body>`, then `Notification-Priority: 2` exactly when the
record is urgent, then an empty line, each followed by CRLF. -/
theorem notify_message_bytes (app_id : CStr) (notification : GGNTPNotification)
    (res : NotifyResult) (hconn : res.connect_error = none)
    (happ : (ascii "Application-Name: " ++ app_id).length ≤ 511)
    (htitle : (ascii "Notification-Title: " ++ notification.title).length ≤ 511)
    (htext : (ascii "Notification-Text: " ++ notification.text).length ≤ 1023) :
    written_bytes (gntp_notify_callback app_id notification res) =
      ascii "GNTP/1.0 NOTIFY NONE\r\n"
        ++ (ascii "Application-Name: " ++ app_id ++ ascii "\r\n")
        ++ ascii "Notification-Name: Notification\r\n"
        ++ (ascii "Notification-Title: " ++ notification.title ++ ascii "\r\n")
        ++ (ascii "Notification-Text: " ++ notification.text ++ ascii "\r\n")
        ++ (if notification.urgent = true then ascii "Notification-Priority: 2\r\n" else [])
        ++ ascii "\r\n" := by
  rw [notify_written app_id notification res hconn,
    g_snprintf_of_fits 512 _ (by simpa using happ),
    g_snprintf_of_fits 512 _ (by simpa using htitle),
    g_snprintf_of_fits 1024 _ (by simpa using htext),
    gntp_write_of_fits (ascii "GNTP/1.0 NOTIFY NONE") (by decide),
    gntp_write_of_fits (ascii "Notification-Name: Notification") (by decide),
    gntp_write_of_fits (ascii "Notification-Priority: 2") (by decide),
    gntp_write_of_fits [] (by decide),
    gntp_write_of_fits (ascii "Application-Name: " ++ app_id) (by omega),
    gntp_write_of_fits (ascii "Notification-Title: " ++ notification.title) (by omega),
    gntp_write_of_fits (ascii "Notification-Text: " ++ notification.text) (by omega)]
  have e1 : ascii "GNTP/1.0 NOTIFY NONE" ++ ascii "\r\n"
      = ascii "GNTP/1.0 NOTIFY NONE\r\n" := by decide
  have e2 : ascii "Notification-Name: Notification" ++ ascii "\r\n"
      = ascii "Notification-Name: Notification\r\n" := by decide
  have e3 : ascii "Notification-Priority: 2" ++ ascii "\r\n"
      = ascii "Notification-Priority: 2\r\n" := by decide
  cases notification.urgent <;>
    simp only [written_bytes_append, written_bytes, List.append_nil, List.nil_append,
      if_true, if_false, e1, e2, e3, List.append_assoc, Bool.false_eq_true]

/-- Witness of C8: title `Hi`, body `There`; with the urgent flag the message
has the line `Notification-Priority: 2`, without the flag it has not. -/
theorem notify_message_bytes_witness :
    written_bytes (gntp_notify_callback example_app_id
        { title := ascii "Hi", text := ascii "There", urgent := true }
        { connect_error := none, icon := false }) =
      ascii ("GNTP/1.0 NOTIFY NONE\r\n" ++ "Application-Name: org.example.App\r\n"
        ++ "Notification-Name: Notification\r\n" ++ "Notification-Title: Hi\r\n"
        ++ "Notification-Text: There\r\n" ++ "Notification-Priority: 2\r\n" ++ "\r\n") ∧
    written_bytes (gntp_notify_callback example_app_id
        { title := ascii "Hi", text := ascii "There", urgent := false }
        { connect_error := none, icon := false }) =
      ascii ("GNTP/1.0 NOTIFY NONE\r\n" ++ "Application-Name: org.example.App\r\n"
        ++ "Notification-Name: Notification\r\n" ++ "Notification-Title: Hi\r\n"
        ++ "Notification-Text: There\r\n" ++ "\r\n") :=
  ⟨(notify_message_bytes example_app_id
      { title := ascii "Hi", text := ascii "There", urgent := true }
      { connect_error := none, icon := false } rfl (by decide) (by decide)
      (by decide)).trans (by decide),
   (notify_message_bytes example_app_id
      { title := ascii "Hi", text := ascii "There", urgent := false }
      { connect_error := none, icon := false } rfl (by decide) (by decide)
      (by decide)).trans (by decide)⟩

/-! ## The verification of the daemon's answer -/

/-- C9 (failing inputs): the connection succeeds and the read reports no error.
(a) The read returns no byte while the array still holds `GNTP/1.0 -OK` from
before: the fragment read is empty, yet `is_registered` becomes true; with the
same read and an array that held zeros `is_registered` stays false, so the
earlier contents of the array decide the outcome.  (b) The read returns
twelve bytes that contain `-OK` after a leading NUL byte: `is_registered` stays
false.  (c) The answer `GNTP/1.0 -OK` read in full sets `is_registered`. -/
theorem register_check_failing_input :
    example_end_of_stream.connect_error = none ∧ example_end_of_stream.read_error = none ∧
    fragment 12 example_end_of_stream.read_data = [] ∧
    (gntp_register_callback g_gntp_notification_backend_init example_app_id
      example_end_of_stream).backend.is_registered = true ∧
    (gntp_register_callback g_gntp_notification_backend_init example_app_id
      { example_end_of_stream with input_buf := List.replicate 12 0 }).backend.is_registered
      = false ∧
    ascii "-OK" <:+: fragment 12 example_nul_first.read_data ∧
    (gntp_register_callback g_gntp_notification_backend_init example_app_id
      example_nul_first).backend.is_registered = false ∧
    (gntp_register_callback g_gntp_notification_backend_init example_app_id
      example_accepted).backend.is_registered = true := by
  decide

/-- C10 (failing input): the connection succeeds and the read returns
`GNTP/1.0 -ER` without error.  The check of line 205 fails, the rejection
branch runs with `error == NULL`, and the callback ends at `error->message`:
the last thing it does is the warning `GNTP registration failed.`, no error
detail is reported and the callback does not return. -/
theorem register_rejection_failing_input :
    example_rejected.connect_error = none ∧ example_rejected.read_error = none ∧
    g_strstr_len (g_input_stream_read example_rejected.input_buf 12 example_rejected.read_data)
      12 (ascii "-OK") = false ∧
    (gntp_register_callback g_gntp_notification_backend_init example_app_id
      example_rejected).completion = Completion.null_dereference ∧
    (gntp_register_callback g_gntp_notification_backend_init example_app_id
      example_rejected).events.getLast? =
        some (Event.warning (ascii "GNTP registration failed.")) := by
  decide


/-! ## Connection failures and `withdraw` -/

/-- C11: in every reachable state with a REGISTER connection in flight, a
registration callback whose connection attempt failed returns with
`is_registering` false, `is_registered` false and the queue as it was, having
written nothing and opened nothing; the next `send` then appends its record to
that queue, sets `is_registering` and opens exactly one new REGISTER
connection, so that again one Registration Session is in flight. -/
theorem registration_connect_failure_retries (app_id : CStr) (actions : List Action)
    (w : World) (res : RegisterResult) (e : GError) (id : CStr)
    (notification : GNotification)
    (hrun : run app_id World.initial actions = some w) (hflight : 0 < w.registering)
    (hconn : res.connect_error = some e) :
    (gntp_register_callback w.backend app_id res).completion = Completion.returned ∧
    (gntp_register_callback w.backend app_id res).backend =
      { is_registered := false, is_registering := false,
        notifications := w.backend.notifications } ∧
    written_bytes (gntp_register_callback w.backend app_id res).events = [] ∧
    opened_register (gntp_register_callback w.backend app_id res).events = 0 ∧
    opened_notify (gntp_register_callback w.backend app_id res).events = [] ∧
    g_gntp_notification_backend_send_notification
        (gntp_register_callback w.backend app_id res).backend id notification =
      ({ is_registered := false, is_registering := true,
         notifications := w.backend.notifications ++ [gntp_notification_new notification] },
       [Event.connect_to_host_async Callback.gntp_register_callback]) ∧
    (run app_id w [Action.register_callback res, Action.send id notification]).map
        (fun w2 => (w2.backend, w2.registering)) =
      some ({ is_registered := false, is_registering := true,
              notifications := w.backend.notifications ++
                [gntp_notification_new notification] }, 1) := by
  obtain ⟨h1, h2, _⟩ := run_consistent app_id actions World.initial w initial_consistent hrun
  have hg : w.backend.is_registering = true := by
    by_contra hcon
    simp [hcon] at h1
    omega
  have hr : w.backend.is_registered = false := by
    cases hreg : w.backend.is_registered with
    | false => rfl
    | true => rw [h2 hreg] at hg; cases hg
  have hone : w.registering = 1 := by simpa [hg] using h1
  have hne : w.registering ≠ 0 := by omega
  have hout : gntp_register_callback w.backend app_id res =
      { backend := { is_registered := false, is_registering := false,
                     notifications := w.backend.notifications }
        events := [Event.warning (ascii "Could not connect to GNTP service.")]
        completion := Completion.returned } := by
    simp [gntp_register_callback, hconn, hr]
  rw [hout]
  refine ⟨rfl, rfl, rfl, ?_, rfl, ?_, ?_⟩
  · simp [opened_register]
  · simp [g_gntp_notification_backend_send_notification]
  · simp [run, step, hne, hout, World.absorb, hone, opened_register,
      g_gntp_notification_backend_send_notification]

/-- Witness of C11: three `send` calls, then the connection attempt fails and a
fourth `send` arrives. -/
theorem registration_connect_failure_retries_witness :
    run example_app_id World.initial example_sends = some (example_world example_sends) ∧
    0 < (example_world example_sends).registering ∧
    (run example_app_id (example_world example_sends)
        [Action.register_callback example_unreachable,
         Action.send (ascii "d") example_first]).map
        (fun w2 => (w2.backend, w2.registering)) =
      some ({ is_registered := false, is_registering := true,
              notifications :=
                [gntp_notification_new example_first, gntp_notification_new example_second,
                 gntp_notification_new example_third, gntp_notification_new example_first] },
            1) :=
  ⟨by decide, by decide,
    (registration_connect_failure_retries example_app_id example_sends
      (example_world example_sends) example_unreachable
      { message := ascii "Connection refused" } (ascii "d") example_first
      (by decide) (by decide) rfl).2.2.2.2.2.2⟩

/-- C12: `withdraw_notification` returns the backend record as it was
(`is_registered`, `is_registering` and the queue) and does nothing: no
connection is opened and no byte is written; a `withdraw` step leaves the whole
state of the main loop unchanged. -/
theorem withdraw_changes_nothing (backend : GGNTPNotificationBackend) (id : CStr)
    (app_id : CStr) (w : World) :
    g_gntp_notification_backend_withdraw_notification backend id = (backend, []) ∧
    opened_register (g_gntp_notification_backend_withdraw_notification backend id).2 = 0 ∧
    opened_notify (g_gntp_notification_backend_withdraw_notification backend id).2 = [] ∧
    written_bytes (g_gntp_notification_backend_withdraw_notification backend id).2 = [] ∧
    step app_id w (Action.withdraw id) = some w := by
  refine ⟨rfl, rfl, rfl, rfl, ?_⟩
  simp [step, g_gntp_notification_backend_withdraw_notification, World.absorb,
    opened_register, opened_notify]


/-! ## Lines of a message -/

/-- A line that holds no CRLF pair, also not across the bytes already read,
followed by CRLF, is read back as that line. -/
theorem split_lines_from_line (l rest cur : List gchar)
    (hl : ¬ (ascii "\r\n" <:+: cur ++ l)) :
    split_lines_from (l ++ ascii "\r\n" ++ rest) cur =
      ((cur ++ l) :: (split_lines_from rest []).1, (split_lines_from rest []).2) := by
  have hcr : ascii "\r\n" = [13, 10] := by decide
  induction l generalizing cur with
  | nil => simp [hcr, split_lines_from]
  | cons c l ih =>
    have hc : ¬ (c = 10 ∧ cur.getLast? = some 13) := by
      rintro ⟨h1, h2⟩
      apply hl
      obtain ⟨front, hfront⟩ := List.getLast?_eq_some_iff.mp h2
      refine ⟨front, l, ?_⟩
      rw [hcr, hfront, h1]
      simp
    have hrec := ih (cur ++ [c]) (by simpa using hl)
    simp only [List.cons_append, split_lines_from, hc, if_false]
    simpa using hrec

/-- A stream made of lines without a CRLF pair, each followed by CRLF, is read
back as exactly those lines. -/
theorem split_lines_of_lines (ls : List (List gchar))
    (h : ∀ l ∈ ls, ¬ (ascii "\r\n" <:+: l)) :
    split_lines (ls.flatMap (fun l => l ++ ascii "\r\n")) = (ls, []) := by
  induction ls with
  | nil => rfl
  | cons l ls ih =>
    have hrec := ih (fun x hx => h x (List.mem_cons_of_mem _ hx))
    simp only [split_lines] at hrec ⊢
    simp only [List.flatMap_cons]
    rw [split_lines_from_line l _ [] (by simpa using h l (List.mem_cons_self _ _)), hrec]
    simp

/-- A CRLF pair inside `pre ++ field`, where `pre` has no CR, lies inside
`field`. -/
theorem crlf_infix_of_append (pre field : CStr) (hpre : (13 : gchar) ∉ pre)
    (h : ascii "\r\n" <:+: pre ++ field) : ascii "\r\n" <:+: field := by
  have hcr : ascii "\r\n" = [13, 10] := by decide
  induction pre with
  | nil => simpa using h
  | cons p pre ih =>
    have hp : p ≠ 13 := by
      intro hp13; apply hpre; simp [hp13]
    have hpre2 : (13 : gchar) ∉ pre := by
      intro hmem; apply hpre; simp [hmem]
    rw [List.cons_append, List.infix_cons_iff] at h
    rcases h with h | h
    · rw [hcr] at h
      obtain ⟨t, ht⟩ := h
      simp only [List.cons_append, List.cons.injEq] at ht
      exact absurd ht.1.symm hp
    · exact ih hpre2 h

/-- Formatting a field without a CRLF pair behind a prefix without CR gives a
line without a CRLF pair, cut or not. -/
theorem g_snprintf_no_crlf (n : Nat) (pre field : CStr) (hpre : (13 : gchar) ∉ pre)
    (hfield : ¬ (ascii "\r\n" <:+: field)) :
    ¬ (ascii "\r\n" <:+: g_snprintf n (pre ++ field)) := by
  intro h
  have h2 : ascii "\r\n" <:+: pre ++ field :=
    h.trans (List.take_prefix _ _).isInfix
  exact hfield (crlf_infix_of_append pre field hpre h2)

theorem g_snprintf_ne_nil (n : Nat) (c : gchar) (t : CStr) (hn : 2 ≤ n) :
    g_snprintf n (c :: t) ≠ [] := by
  obtain ⟨k, rfl⟩ : ∃ k, n = k + 2 := ⟨n - 2, by omega⟩
  simp [g_snprintf]

/-- The bytes written by `gntp_notify_callback`, as a list of lines. -/
theorem notify_written_lines (app_id : CStr) (notification : GGNTPNotification)
    (res : NotifyResult) (hconn : res.connect_error = none) :
    written_bytes (gntp_notify_callback app_id notification res) =
      ([ascii "GNTP/1.0 NOTIFY NONE",
        g_snprintf 512 (ascii "Application-Name: " ++ app_id),
        ascii "Notification-Name: Notification",
        g_snprintf 512 (ascii "Notification-Title: " ++ notification.title),
        g_snprintf 1024 (ascii "Notification-Text: " ++ notification.text)]
        ++ (if notification.urgent = true then [ascii "Notification-Priority: 2"] else [])
        ++ [[]]).flatMap (fun l => l ++ ascii "\r\n") := by
  have h1 := g_snprintf_length_le 512 (ascii "Application-Name: " ++ app_id)
  have h2 := g_snprintf_length_le 512 (ascii "Notification-Title: " ++ notification.title)
  have h3 := g_snprintf_length_le 1024 (ascii "Notification-Text: " ++ notification.text)
  rw [notify_written app_id notification res hconn,
    gntp_write_of_fits (ascii "GNTP/1.0 NOTIFY NONE") (by decide),
    gntp_write_of_fits (ascii "Notification-Name: Notification") (by decide),
    gntp_write_of_fits (ascii "Notification-Priority: 2") (by decide),
    gntp_write_of_fits [] (by decide),
    gntp_write_of_fits (g_snprintf 512 (ascii "Application-Name: " ++ app_id)) (by omega),
    gntp_write_of_fits (g_snprintf 512 (ascii "Notification-Title: " ++ notification.title))
      (by omega),
    gntp_write_of_fits (g_snprintf 1024 (ascii "Notification-Text: " ++ notification.text))
      (by omega)]
  cases notification.urgent <;>
    simp [written_bytes_append, written_bytes, List.flatMap_cons]

/-- The bytes written by `gntp_register_callback`, as a list of lines. -/
theorem register_written_lines (backend : GGNTPNotificationBackend) (app_id : CStr)
    (res : RegisterResult) (hconn : res.connect_error = none) :
    written_bytes (gntp_register_callback backend app_id res).events =
      [ascii "GNTP/1.0 REGISTER NONE",
        g_snprintf 512 (ascii "Application-Name: " ++ app_id),
        ascii "Notifications-Count: 1",
        [],
        ascii "Notification-Name: Notification",
        ascii "Notification-Enabled: True",
        []].flatMap (fun l => l ++ ascii "\r\n") := by
  have h1 := g_snprintf_length_le 512 (ascii "Application-Name: " ++ app_id)
  rw [register_written backend app_id res hconn,
    gntp_write_of_fits (ascii "GNTP/1.0 REGISTER NONE") (by decide),
    gntp_write_of_fits (ascii "Notifications-Count: 1") (by decide),
    gntp_write_of_fits (ascii "Notification-Name: Notification") (by decide),
    gntp_write_of_fits (ascii "Notification-Enabled: True") (by decide),
    gntp_write_of_fits [] (by decide),
    gntp_write_of_fits (g_snprintf 512 (ascii "Application-Name: " ++ app_id)) (by omega)]
  simp [written_bytes_append, written_bytes, List.flatMap_cons]


/-- C13 (amended): when neither the title, nor the body, nor the application
id contains a CRLF pair (an LF right after a CR), the NOTIFY message read as
CRLF-terminated lines is its header lines, all non-empty, followed by exactly
one empty line, which is its last line, with nothing after it; and the REGISTER
message is three non-empty header lines, an empty line, two non-empty header
lines and an empty line: exactly two empty lines, one ending each block. -/
theorem message_line_structure (backend : GGNTPNotificationBackend) (app_id : CStr)
    (notification : GGNTPNotification) (res : NotifyResult) (reg : RegisterResult)
    (hres : res.connect_error = none) (hreg : reg.connect_error = none)
    (happ : ¬ (ascii "\r\n" <:+: app_id))
    (htitle : ¬ (ascii "\r\n" <:+: notification.title))
    (htext : ¬ (ascii "\r\n" <:+: notification.text)) :
    split_lines (written_bytes (gntp_notify_callback app_id notification res)) =
      ([ascii "GNTP/1.0 NOTIFY NONE",
        g_snprintf 512 (ascii "Application-Name: " ++ app_id),
        ascii "Notification-Name: Notification",
        g_snprintf 512 (ascii "Notification-Title: " ++ notification.title),
        g_snprintf 1024 (ascii "Notification-Text: " ++ notification.text)]
        ++ (if notification.urgent = true then [ascii "Notification-Priority: 2"] else [])
        ++ [[]], []) ∧
    (split_lines (written_bytes (gntp_notify_callback app_id notification res))).1.count []
      = 1 ∧
    (split_lines (written_bytes (gntp_notify_callback app_id notification res))).1.getLast?
      = some [] ∧
    split_lines (written_bytes (gntp_register_callback backend app_id reg).events) =
      ([ascii "GNTP/1.0 REGISTER NONE",
        g_snprintf 512 (ascii "Application-Name: " ++ app_id),
        ascii "Notifications-Count: 1",
        [],
        ascii "Notification-Name: Notification",
        ascii "Notification-Enabled: True",
        []], []) ∧
    (split_lines (written_bytes (gntp_register_callback backend app_id reg).events)).1.count []
      = 2 := by
  have a1 : ¬ (ascii "\r\n" <:+: g_snprintf 512 (ascii "Application-Name: " ++ app_id)) :=
    g_snprintf_no_crlf 512 _ _ (by decide) happ
  have a2 : ¬ (ascii "\r\n" <:+:
      g_snprintf 512 (ascii "Notification-Title: " ++ notification.title)) :=
    g_snprintf_no_crlf 512 _ _ (by decide) htitle
  have a3 : ¬ (ascii "\r\n" <:+:
      g_snprintf 1024 (ascii "Notification-Text: " ++ notification.text)) :=
    g_snprintf_no_crlf 1024 _ _ (by decide) htext
  have b0 : ¬ (ascii "\r\n" <:+: ([] : List gchar)) := by decide
  have b1 : ¬ (ascii "\r\n" <:+: ascii "GNTP/1.0 NOTIFY NONE") := by decide
  have b2 : ¬ (ascii "\r\n" <:+: ascii "Notification-Name: Notification") := by decide
  have b3 : ¬ (ascii "\r\n" <:+: ascii "Notification-Priority: 2") := by decide
  have b4 : ¬ (ascii "\r\n" <:+: ascii "GNTP/1.0 REGISTER NONE") := by decide
  have b5 : ¬ (ascii "\r\n" <:+: ascii "Notifications-Count: 1") := by decide
  have b6 : ¬ (ascii "\r\n" <:+: ascii "Notification-Enabled: True") := by decide
  have n1 : g_snprintf 512 (ascii "Application-Name: " ++ app_id) ≠ [] :=
    g_snprintf_ne_nil 512 65 (ascii "pplication-Name: " ++ app_id) (by omega)
  have n2 : g_snprintf 512 (ascii "Notification-Title: " ++ notification.title) ≠ [] :=
    g_snprintf_ne_nil 512 78 (ascii "otification-Title: " ++ notification.title) (by omega)
  have n3 : g_snprintf 1024 (ascii "Notification-Text: " ++ notification.text) ≠ [] :=
    g_snprintf_ne_nil 1024 78 (ascii "otification-Text: " ++ notification.text) (by omega)
  have c1 : ascii "GNTP/1.0 NOTIFY NONE" ≠ [] := by decide
  have c2 : ascii "Notification-Name: Notification" ≠ [] := by decide
  have c3 : ascii "Notification-Priority: 2" ≠ [] := by decide
  have c4 : ascii "GNTP/1.0 REGISTER NONE" ≠ [] := by decide
  have c5 : ascii "Notifications-Count: 1" ≠ [] := by decide
  have c6 : ascii "Notification-Enabled: True" ≠ [] := by decide
  have hN : split_lines (written_bytes (gntp_notify_callback app_id notification res)) =
      ([ascii "GNTP/1.0 NOTIFY NONE",
        g_snprintf 512 (ascii "Application-Name: " ++ app_id),
        ascii "Notification-Name: Notification",
        g_snprintf 512 (ascii "Notification-Title: " ++ notification.title),
        g_snprintf 1024 (ascii "Notification-Text: " ++ notification.text)]
        ++ (if notification.urgent = true then [ascii "Notification-Priority: 2"] else [])
        ++ [[]], []) := by
    rw [notify_written_lines app_id notification res hres]
    apply split_lines_of_lines
    cases notification.urgent
    · simp only [if_false, Bool.false_eq_true, List.append_nil, List.cons_append,
        List.nil_append, List.forall_mem_cons, List.not_mem_nil, false_implies, implies_true,
        and_true]
      exact ⟨b1, a1, b2, a2, a3, b0⟩
    · simp only [if_true, List.cons_append, List.nil_append, List.forall_mem_cons,
        List.not_mem_nil, false_implies, implies_true, and_true]
      exact ⟨b1, a1, b2, a2, a3, b3, b0⟩
  have hR : split_lines (written_bytes (gntp_register_callback backend app_id reg).events) =
      ([ascii "GNTP/1.0 REGISTER NONE",
        g_snprintf 512 (ascii "Application-Name: " ++ app_id),
        ascii "Notifications-Count: 1",
        [],
        ascii "Notification-Name: Notification",
        ascii "Notification-Enabled: True",
        []], []) := by
    rw [register_written_lines backend app_id reg hreg]
    apply split_lines_of_lines
    simp only [List.forall_mem_cons, List.not_mem_nil, false_implies, implies_true,
      and_true]
    exact ⟨b4, a1, b5, b0, b2, b6, b0⟩
  refine ⟨hN, ?_, ?_, hR, ?_⟩
  · rw [hN]
    cases notification.urgent <;> simp [List.count_cons, n1, n2, n3, c1, c2, c3]
  · rw [hN]
    cases notification.urgent <;> simp
  · rw [hR]
    simp [List.count_cons, n1, c4, c5, c2, c6]


/-- Witness of C13: a body of two lines separated by a bare LF (no CRLF pair)
in an urgent notification, and the REGISTER message of `org.example.App`. -/
theorem message_line_structure_witness :
    ¬ (ascii "\r\n" <:+: example_multiline.text) ∧
    (10 : gchar) ∈ example_multiline.text ∧
    (split_lines (written_bytes (gntp_notify_callback example_app_id
      example_multiline example_connected))).1.count [] = 1 ∧
    (split_lines (written_bytes (gntp_notify_callback example_app_id
      example_multiline example_connected))).1.getLast? = some [] ∧
    (split_lines (written_bytes (gntp_register_callback g_gntp_notification_backend_init
      example_app_id example_accepted).events)).1.count [] = 2 :=
  have h := message_line_structure g_gntp_notification_backend_init example_app_id
    example_multiline example_connected example_accepted rfl rfl
    (by decide) (by decide) (by decide)
  ⟨by decide, by decide, h.2.1, h.2.2.1, h.2.2.2.2⟩

/-- Counterexample to C13 as stated: a title that holds `a`, CRLF, CRLF, `b`.
The NOTIFY message then has an empty line right after the title line, a further
line `b`, and two empty lines in all. -/
theorem message_line_structure_counterexample :
    split_lines (written_bytes
        (gntp_notify_callback example_app_id example_injected example_connected)) =
      ([ascii "GNTP/1.0 NOTIFY NONE", ascii "Application-Name: org.example.App",
        ascii "Notification-Name: Notification", ascii "Notification-Title: a", [],
        ascii "b", ascii "Notification-Text: There", []], []) ∧
    (split_lines (written_bytes
        (gntp_notify_callback example_app_id example_injected example_connected))).1.count []
      = 2 := by
  decide

/-! ## The line encoder -/

/-- C14: for every text of at most 2045 bytes, `gntp_write` does exactly one
thing: it writes the bytes of the text followed by CRLF. -/
theorem gntp_write_within_limit (text : CStr) (h : text.length ≤ 2045) :
    gntp_write text = [Event.write (text ++ ascii "\r\n")] ∧
    written_bytes (gntp_write text) = text ++ ascii "\r\n" := by
  rw [gntp_write_of_fits text h]
  simp [written_bytes]

/-- Witness of C14: the first line of a NOTIFY message. -/
theorem gntp_write_within_limit_witness :
    gntp_write (ascii "GNTP/1.0 NOTIFY NONE") =
      [Event.write (ascii "GNTP/1.0 NOTIFY NONE\r\n")] :=
  (gntp_write_within_limit (ascii "GNTP/1.0 NOTIFY NONE") (by decide)).1.trans (by decide)

/-! ## Delivery failure -/

/-- C15: when the connection attempt of a Delivery Session fails, its callback
writes no byte and opens no connection (no new Delivery or Registration
Session); the step leaves the backend record (`is_registered`,
`is_registering`, queue) and the REGISTER sessions in flight as they were and
removes the record from the sessions in flight: it is dropped, not queued
again. -/
theorem delivery_connect_failure_drops (app_id : CStr) (w : World) (i : Nat)
    (notification : GGNTPNotification) (res : NotifyResult) (e : GError)
    (hget : w.delivering.get? i = some notification)
    (hconn : res.connect_error = some e) :
    written_bytes (gntp_notify_callback app_id notification res) = [] ∧
    opened_notify (gntp_notify_callback app_id notification res) = [] ∧
    opened_register (gntp_notify_callback app_id notification res) = 0 ∧
    step app_id w (Action.notify_callback i res) =
      some { backend := w.backend
             registering := w.registering
             delivering := w.delivering.eraseIdx i
             trace := w.trace ++
               [Event.warning (ascii "Could not connect to GNTP service.")] } := by
  have hev : gntp_notify_callback app_id notification res =
      [Event.warning (ascii "Could not connect to GNTP service.")] := by
    simp [gntp_notify_callback, hconn]
  refine ⟨?_, ?_, ?_, ?_⟩
  · rw [hev]; rfl
  · rw [hev]; rfl
  · rw [hev]; simp [opened_register]
  · simp only [step, hget, hev]
    simp [World.absorb, opened_register, opened_notify]


/-- Witness of C15: three notifications are queued and registration succeeds;
the connection of the first delivery then fails.  The backend stays registered
with an empty queue and the two other deliveries stay in flight. -/
theorem delivery_connect_failure_drops_witness :
    (example_world (example_sends ++ [Action.register_callback example_accepted])).delivering.get? 0
      = some (gntp_notification_new example_first) ∧
    written_bytes (gntp_notify_callback example_app_id (gntp_notification_new example_first)
      example_refused) = [] ∧
    (step example_app_id
        (example_world (example_sends ++ [Action.register_callback example_accepted]))
        (Action.notify_callback 0 example_refused)).map (fun w1 => (w1.backend, w1.delivering))
      = some ({ is_registered := true, is_registering := false, notifications := [] },
          [gntp_notification_new example_second, gntp_notification_new example_third]) :=
  have h := delivery_connect_failure_drops example_app_id
    (example_world (example_sends ++ [Action.register_callback example_accepted])) 0
    (gntp_notification_new example_first) example_refused
    { message := ascii "Connection refused" } (by decide) rfl
  ⟨by decide, h.1, by rw [h.2.2.2]; decide⟩

/-! ## Oversized fields -/

/-- The events of `gntp_notify_callback` once connected. -/
theorem notify_events (app_id : CStr) (notification : GGNTPNotification)
    (res : NotifyResult) (hconn : res.connect_error = none) :
    gntp_notify_callback app_id notification res =
      gntp_write (ascii "GNTP/1.0 NOTIFY NONE")
        ++ gntp_write (g_snprintf 512 (ascii "Application-Name: " ++ app_id))
        ++ gntp_write (ascii "Notification-Name: Notification")
        ++ gntp_write (g_snprintf 512 (ascii "Notification-Title: " ++ notification.title))
        ++ gntp_write (g_snprintf 1024 (ascii "Notification-Text: " ++ notification.text))
        ++ (if notification.urgent then gntp_write (ascii "Notification-Priority: 2") else [])
        ++ gntp_write []
        ++ [Event.close_output] := by
  unfold gntp_notify_callback
  simp only [hconn]
  cases res.icon <;> simp

/-- The events of `gntp_notify_callback` once connected, each write spelled
out. -/
theorem notify_events_explicit (app_id : CStr) (notification : GGNTPNotification)
    (res : NotifyResult) (hconn : res.connect_error = none) :
    gntp_notify_callback app_id notification res =
      [Event.write (ascii "GNTP/1.0 NOTIFY NONE\r\n"),
       Event.write ((ascii "Application-Name: " ++ app_id).take 511 ++ ascii "\r\n"),
       Event.write (ascii "Notification-Name: Notification\r\n"),
       Event.write ((ascii "Notification-Title: " ++ notification.title).take 511
         ++ ascii "\r\n"),
       Event.write ((ascii "Notification-Text: " ++ notification.text).take 1023
         ++ ascii "\r\n")]
      ++ (if notification.urgent = true
            then [Event.write (ascii "Notification-Priority: 2\r\n")] else [])
      ++ [Event.write (ascii "\r\n"), Event.close_output] := by
  have h1 := g_snprintf_length_le 512 (ascii "Application-Name: " ++ app_id)
  have h2 := g_snprintf_length_le 512 (ascii "Notification-Title: " ++ notification.title)
  have h3 := g_snprintf_length_le 1024 (ascii "Notification-Text: " ++ notification.text)
  rw [notify_events app_id notification res hconn,
    gntp_write_of_fits (ascii "GNTP/1.0 NOTIFY NONE") (by decide),
    gntp_write_of_fits (ascii "Notification-Name: Notification") (by decide),
    gntp_write_of_fits (ascii "Notification-Priority: 2") (by decide),
    gntp_write_of_fits [] (by decide),
    gntp_write_of_fits (g_snprintf 512 (ascii "Application-Name: " ++ app_id)) (by omega),
    gntp_write_of_fits (g_snprintf 512 (ascii "Notification-Title: " ++ notification.title))
      (by omega),
    gntp_write_of_fits (g_snprintf 1024 (ascii "Notification-Text: " ++ notification.text))
      (by omega)]
  have e1 : ascii "GNTP/1.0 NOTIFY NONE" ++ ascii "\r\n"
      = ascii "GNTP/1.0 NOTIFY NONE\r\n" := by decide
  have e2 : ascii "Notification-Name: Notification" ++ ascii "\r\n"
      = ascii "Notification-Name: Notification\r\n" := by decide
  have e3 : ascii "Notification-Priority: 2" ++ ascii "\r\n"
      = ascii "Notification-Priority: 2\r\n" := by decide
  rw [e1, e2, e3]
  cases notification.urgent <;> simp [g_snprintf]

/-- C16: for every title, body and application id, of any length, the NOTIFY
callback once connected does nothing but write its lines and close the output
(no warning): the `Application-Name` and `Notification-Title` lines are the
first 511 bytes of `Application-Name: <id>` and `Notification-Title: <title>`
(all of them when they are shorter), the `Notification-Text` line is the first
1023 bytes of `Notification-Text: <body>`, each followed by CRLF, and every
other line is written whole; the same holds for the `Application-Name` line of
the REGISTER message; none of the events of the NOTIFY callback is a
warning. -/
theorem oversized_fields_truncated (backend : GGNTPNotificationBackend) (app_id : CStr)
    (notification : GGNTPNotification) (res : NotifyResult) (reg : RegisterResult)
    (hres : res.connect_error = none) (hreg : reg.connect_error = none) :
    gntp_notify_callback app_id notification res =
      [Event.write (ascii "GNTP/1.0 NOTIFY NONE\r\n"),
       Event.write ((ascii "Application-Name: " ++ app_id).take 511 ++ ascii "\r\n"),
       Event.write (ascii "Notification-Name: Notification\r\n"),
       Event.write ((ascii "Notification-Title: " ++ notification.title).take 511
         ++ ascii "\r\n"),
       Event.write ((ascii "Notification-Text: " ++ notification.text).take 1023
         ++ ascii "\r\n")]
      ++ (if notification.urgent = true
            then [Event.write (ascii "Notification-Priority: 2\r\n")] else [])
      ++ [Event.write (ascii "\r\n"), Event.close_output] ∧
    written_bytes (gntp_register_callback backend app_id reg).events =
      ascii "GNTP/1.0 REGISTER NONE\r\n"
        ++ ((ascii "Application-Name: " ++ app_id).take 511 ++ ascii "\r\n")
        ++ ascii "Notifications-Count: 1\r\n"
        ++ ascii "\r\n"
        ++ ascii "Notification-Name: Notification\r\n"
        ++ ascii "Notification-Enabled: True\r\n"
        ++ ascii "\r\n" ∧
    ((ascii "Application-Name: " ++ app_id).take 511).length
      = min 511 (ascii "Application-Name: " ++ app_id).length ∧
    ((ascii "Notification-Title: " ++ notification.title).take 511).length
      = min 511 (ascii "Notification-Title: " ++ notification.title).length ∧
    ((ascii "Notification-Text: " ++ notification.text).take 1023).length
      = min 1023 (ascii "Notification-Text: " ++ notification.text).length ∧
    (gntp_notify_callback app_id notification res).all (fun ev => !ev.is_warning) = true := by
  refine ⟨notify_events_explicit app_id notification res hres, ?_, List.length_take _ _,
    List.length_take _ _, List.length_take _ _, ?_⟩
  swap
  · rw [notify_events_explicit app_id notification res hres]
    cases notification.urgent <;> simp [Event.is_warning]
  rw [register_written_lines backend app_id reg hreg]
  have e1 : ascii "GNTP/1.0 REGISTER NONE" ++ ascii "\r\n"
      = ascii "GNTP/1.0 REGISTER NONE\r\n" := by decide
  have e2 : ascii "Notifications-Count: 1" ++ ascii "\r\n"
      = ascii "Notifications-Count: 1\r\n" := by decide
  have e3 : ascii "Notification-Name: Notification" ++ ascii "\r\n"
      = ascii "Notification-Name: Notification\r\n" := by decide
  have e4 : ascii "Notification-Enabled: True" ++ ascii "\r\n"
      = ascii "Notification-Enabled: True\r\n" := by decide
  simp only [List.flatMap_cons, List.flatMap_nil, List.append_nil, List.nil_append,
    g_snprintf, e1, e2, e3, e4, List.append_assoc]


/-- Witness of C16: a title of 600 bytes and a body of 1100 bytes; the title
line is cut to 511 bytes and the text line to 1023 bytes. -/
theorem oversized_fields_truncated_witness :
    ((ascii "Notification-Title: " ++ example_long.title).take 511).length
      = min 511 (ascii "Notification-Title: " ++ example_long.title).length ∧
    ((ascii "Notification-Text: " ++ example_long.text).take 1023).length
      = min 1023 (ascii "Notification-Text: " ++ example_long.text).length ∧
    min 511 (ascii "Notification-Title: " ++ example_long.title).length = 511 ∧
    min 1023 (ascii "Notification-Text: " ++ example_long.text).length = 1023 :=
  have h := oversized_fields_truncated g_gntp_notification_backend_init example_app_id
    example_long example_connected example_accepted rfl rfl
  ⟨h.2.2.2.1, h.2.2.2.2.1, by decide, by decide⟩

/-! ## Reachable states, continued -/

/-- C17: in every state reached from the initial state by `send`, `withdraw`,
registration-callback and delivery-callback steps, `is_registered = true`
implies that the queue is empty. -/
theorem registered_queue_empty (app_id : CStr) (actions : List Action) (w : World)
    (hrun : run app_id World.initial actions = some w)
    (hreg : w.backend.is_registered = true) :
    w.backend.notifications = [] :=
  (run_consistent app_id actions World.initial w initial_consistent hrun).2.2 hreg

/-- Witness of C17: a run through registration, deliveries and a later `send`. -/
theorem registered_queue_empty_witness :
    run example_app_id World.initial example_session = some (example_world example_session) ∧
    (example_world example_session).backend.is_registered = true ∧
    (example_world example_session).backend.notifications = [] :=
  ⟨by decide, by decide,
    registered_queue_empty example_app_id example_session (example_world example_session)
      (by decide) (by decide)⟩

theorem drain_has_no_write (l : List GGNTPNotification) (b : List gchar) :
    Event.write b ∉ (drain_notifications l).1 := by
  induction l with
  | nil => simp [drain_notifications]
  | cons n rest ih => simp [drain_notifications, gntp_notify, ih]

/-- Every write of `gntp_register_callback` is one of its seven `gntp_write`
calls. -/
theorem register_write_mem (backend : GGNTPNotificationBackend) (app_id : CStr)
    (res : RegisterResult) (b : List gchar)
    (h : Event.write b ∈ (gntp_register_callback backend app_id res).events) :
    Event.write b ∈
      gntp_write (ascii "GNTP/1.0 REGISTER NONE")
        ++ gntp_write (g_snprintf 512 (ascii "Application-Name: " ++ app_id))
        ++ gntp_write (ascii "Notifications-Count: 1")
        ++ gntp_write []
        ++ gntp_write (ascii "Notification-Name: Notification")
        ++ gntp_write (ascii "Notification-Enabled: True")
        ++ gntp_write [] := by
  have hd := drain_has_no_write backend.notifications b
  unfold gntp_register_callback at h
  cases hc : res.connect_error with
  | some e => simp [hc] at h
  | none =>
    simp only [hc] at h
    split at h
    · simp only [List.mem_append] at h ⊢
      simp only [List.mem_singleton, reduceCtorEq, or_false] at h
      rcases h with h | h
      · simpa [List.mem_append] using h
      · exact absurd h hd
    · cases hr : res.read_error with
      | some e =>
        simp only [hr] at h
        simpa [List.mem_append] using h
      | none =>
        simp only [hr] at h
        simpa [List.mem_append] using h


theorem gntp_write_mem (line b : List gchar) (hl : line.length ≤ 1023)
    (h : Event.write b ∈ gntp_write line) :
    ∃ l : CStr, l.length ≤ 1023 ∧ gntp_write l = [Event.write b] ∧
      b = l ++ ascii "\r\n" := by
  rw [gntp_write_of_fits line (by omega)] at h
  simp only [List.mem_singleton, Event.write.injEq] at h
  subst h
  exact ⟨line, hl, gntp_write_of_fits line (by omega), rfl⟩

/-- C18: for every title, body and application id, of any length, every write
of the delivery callback and of the registration callback comes from a
`gntp_write` call on a line of at most 1023 bytes; `gntp_write` does not cut
such a line, so the bytes written are the line followed by the complete
CRLF. -/
theorem lines_within_write_limit (backend : GGNTPNotificationBackend) (app_id : CStr)
    (notification : GGNTPNotification) (res : NotifyResult) (reg : RegisterResult)
    (b : List gchar)
    (hmem : Event.write b ∈ gntp_notify_callback app_id notification res ∨
      Event.write b ∈ (gntp_register_callback backend app_id reg).events) :
    ∃ line : CStr, line.length ≤ 1023 ∧ gntp_write line = [Event.write b] ∧
      b = line ++ ascii "\r\n" := by
  have h1 := g_snprintf_length_le 512 (ascii "Application-Name: " ++ app_id)
  have h2 := g_snprintf_length_le 512 (ascii "Notification-Title: " ++ notification.title)
  have h3 := g_snprintf_length_le 1024 (ascii "Notification-Text: " ++ notification.text)
  have k1 : (ascii "GNTP/1.0 NOTIFY NONE").length ≤ 1023 := by decide
  have k2 : (ascii "Notification-Name: Notification").length ≤ 1023 := by decide
  have k3 : (ascii "Notification-Priority: 2").length ≤ 1023 := by decide
  have k4 : (ascii "GNTP/1.0 REGISTER NONE").length ≤ 1023 := by decide
  have k5 : (ascii "Notifications-Count: 1").length ≤ 1023 := by decide
  have k6 : (ascii "Notification-Enabled: True").length ≤ 1023 := by decide
  have k7 : ([] : CStr).length ≤ 1023 := by decide
  rcases hmem with hmem | hmem
  · cases hc : res.connect_error with
    | some e => simp [gntp_notify_callback, hc] at hmem
    | none =>
      rw [notify_events app_id notification res hc] at hmem
      simp only [List.mem_append, List.mem_singleton, reduceCtorEq, or_false] at hmem
      rcases hmem with (((((h | h) | h) | h) | h) | h) | h
      · exact gntp_write_mem _ b k1 h
      · exact gntp_write_mem _ b (by omega) h
      · exact gntp_write_mem _ b k2 h
      · exact gntp_write_mem _ b (by omega) h
      · exact gntp_write_mem _ b (by omega) h
      · cases hu : notification.urgent with
        | false => simp [hu] at h
        | true =>
          simp only [hu, if_true] at h
          exact gntp_write_mem _ b k3 h
      · exact gntp_write_mem _ b k7 h
  · have h := register_write_mem backend app_id reg b hmem
    simp only [List.mem_append] at h
    rcases h with (((((h | h) | h) | h) | h) | h) | h
    · exact gntp_write_mem _ b k4 h
    · exact gntp_write_mem _ b (by omega) h
    · exact gntp_write_mem _ b k5 h
    · exact gntp_write_mem _ b k7 h
    · exact gntp_write_mem _ b k2 h
    · exact gntp_write_mem _ b k6 h
    · exact gntp_write_mem _ b k7 h

/-- Witness of C18: the text line of a record with a body of 1100 bytes is
written as its first 1023 bytes followed by CRLF. -/
theorem lines_within_write_limit_witness :
    Event.write ((ascii "Notification-Text: " ++ example_long.text).take 1023 ++ ascii "\r\n")
      ∈ gntp_notify_callback example_app_id example_long example_connected ∧
    ∃ line : CStr, line.length ≤ 1023 ∧
      gntp_write line =
        [Event.write ((ascii "Notification-Text: " ++ example_long.text).take 1023
          ++ ascii "\r\n")] ∧
      (ascii "Notification-Text: " ++ example_long.text).take 1023 ++ ascii "\r\n"
        = line ++ ascii "\r\n" :=
  have hmem : Event.write ((ascii "Notification-Text: " ++ example_long.text).take 1023
      ++ ascii "\r\n")
      ∈ gntp_notify_callback example_app_id example_long example_connected := by
    rw [notify_events_explicit example_app_id example_long example_connected rfl]
    simp
  ⟨hmem, lines_within_write_limit g_gntp_notification_backend_init example_app_id
    example_long example_connected example_accepted _ (Or.inl hmem)⟩

/-- A step from a consistent, registered state keeps the backend registered and
opens no REGISTER connection. -/
theorem step_registered (app_id : CStr) (w w1 : World) (a : Action)
    (hw : w.consistent) (hreg : w.backend.is_registered = true)
    (hstep : step app_id w a = some w1) :
    w1.backend.is_registered = true ∧
    opened_register w1.trace = opened_register w.trace := by
  obtain ⟨h1, h2, _⟩ := hw
  have hg : w.backend.is_registering = false := h2 hreg
  cases a with
  | send id n =>
    simp only [step, Option.some.injEq] at hstep
    subst hstep
    simp [World.absorb, g_gntp_notification_backend_send_notification, hreg,
      opened_register, gntp_notify]
  | withdraw id =>
    simp only [step, Option.some.injEq] at hstep
    subst hstep
    simp [World.absorb, g_gntp_notification_backend_withdraw_notification, hreg]
  | register_callback res =>
    have h0 : w.registering = 0 := by simpa [hg] using h1
    simp [step, h0] at hstep
  | notify_callback i res =>
    simp only [step] at hstep
    split at hstep
    · simp at hstep
    · rename_i n _
      simp only [Option.some.injEq] at hstep
      subst hstep
      have ho := (notify_callback_opens_nothing app_id n res).2
      simp only [World.absorb, opened_register_append, ho]
      exact ⟨hreg, rfl⟩

/-- C19: from every reachable state with `is_registered = true`, every later
sequence of `send`, `withdraw`, registration-callback and delivery-callback
steps ends in a state where `is_registered` is still true, `is_registering` is
false, no REGISTER connection is in flight, and the number of REGISTER
connections opened since the start has not grown. -/
theorem registration_is_one_time (app_id : CStr) (before later : List Action)
    (w w1 : World)
    (hrun : run app_id World.initial before = some w)
    (hreg : w.backend.is_registered = true)
    (hlater : run app_id w later = some w1) :
    w1.backend.is_registered = true ∧ w1.backend.is_registering = false ∧
    w1.registering = 0 ∧ opened_register w1.trace = opened_register w.trace := by
  have hw := run_consistent app_id before World.initial w initial_consistent hrun
  clear hrun
  induction later generalizing w with
  | nil =>
    simp only [run, Option.some.injEq] at hlater
    subst hlater
    have hg := hw.2.1 hreg
    exact ⟨hreg, hg, by simpa [hg] using hw.1, rfl⟩
  | cons a rest ih =>
    simp only [run] at hlater
    split at hlater
    · simp at hlater
    · rename_i w2 hstep
      have hs := step_registered app_id w w2 a hw hreg hstep
      have hw2 := step_consistent app_id w w2 a hw hstep
      obtain ⟨r1, r2, r3, r4⟩ := ih w2 hs.1 hlater hw2
      exact ⟨r1, r2, r3, r4.trans hs.2⟩

/-- Witness of C19: registration succeeds after three `send` calls; a delivery
callback, a fourth `send`, a `withdraw` and a failing delivery follow. -/
theorem registration_is_one_time_witness :
    (example_world (example_sends ++ [Action.register_callback example_accepted])
      ).backend.is_registered = true ∧
    (example_world example_session).backend.is_registered = true ∧
    (example_world example_session).backend.is_registering = false ∧
    (example_world example_session).registering = 0 ∧
    opened_register (example_world example_session).trace = 1 :=
  have h := registration_is_one_time example_app_id
    (example_sends ++ [Action.register_callback example_accepted])
    [Action.notify_callback 1 { connect_error := none, icon := false },
     Action.send (ascii "d") example_first,
     Action.withdraw (ascii "a"),
     Action.notify_callback 0
       { connect_error := some { message := ascii "refused" }, icon := false }]
    (example_world (example_sends ++ [Action.register_callback example_accepted]))
    (example_world example_session) (by decide) (by decide) (by decide)
  ⟨by decide, h.1, h.2.1, h.2.2.1, h.2.2.2.trans (by decide)⟩

end GNTP
